import Mathlib

/-
Verification development for the Activity Timeline client of the
django-nextjs-interview repository (Next.js front end).

Shallow embedding conventions:
- Timestamps are seconds since the UTC epoch, a `Nat`.  The calendar date that
  the source obtains by `timestamp.split('T')[0]` on an ISO-8601 UTC string is
  modelled as the day index `t / 86400`.
- Calendar dates appearing as `YYYY-MM-DD` strings in the source (chart axis
  entries, touchpoint dates, navigation targets) are modelled as day indices
  of type `Nat`; equality of the strings is equality of the day indices.
- Pixel coordinates computed by the minimap are modelled in `ℚ`; the
  JavaScript number expressions involved are a single division, one
  multiplication and additions on small values, where rational arithmetic
  agrees with the intended real arithmetic.
- The client is single threaded and event driven: every state change happens
  in one of the handlers or effects embedded below as pure functions on the
  state, and an execution is a composition of those functions.  Asynchronous
  fetch completions are modelled by the `resolveSuccess` / `resolveFailure`
  steps, which may be interleaved with the other steps in any order.
-/

namespace ActivityTimeline

/-- Person record (`types/activity.ts`, interface `Person`). -/
structure Person where
  id : String
  first_name : String
  last_name : String
  email_address : String
  job_title : Option String
deriving DecidableEq, Repr

/-- Direction of an activity event (`types/activity.ts`). -/
inductive Direction
  | IN
  | OUT
deriving DecidableEq, Repr

/-- Activity event (`types/activity.ts`, interface `ActivityEvent`). -/
structure ActivityEvent where
  id : Nat
  timestamp : Nat
  activity : String
  channel : String
  status : String
  direction : Direction
  people : List Person
  involved_team_ids : List String
deriving DecidableEq, Repr

/-- Pagination block of the events endpoint response (`types/activity.ts`). -/
structure Pagination where
  current_page : Nat
  total_pages : Nat
  total_count : Nat
  has_next : Bool
  has_previous : Bool
deriving DecidableEq, Repr

/-- Response of the events endpoint (`types/activity.ts`, `ApiResponse`).
The `persons` mapping is modelled as an association list from person id to
`Person`; only its lookup behaviour is used. -/
structure ApiResponse where
  events : List ActivityEvent
  persons : List (String × Person)
  pagination : Pagination
deriving DecidableEq, Repr

/-- First-touchpoint marker datum (`types/activity.ts`, `FirstTouchpoint`). -/
structure FirstTouchpoint where
  person_id : String
  timestamp : Nat
  date : Nat
deriving DecidableEq, Repr

/-- date-fns `differenceInDays`: the number of full days between two UTC
instants, truncated toward zero. -/
def differenceInDays (current previous : Int) : Int :=
  Int.tdiv (current - previous) 86400

/-- `calculateDateGap` from `lib/utils.ts`: parses both ISO strings and
returns `differenceInDays(current, previous)`. -/
def calculateDateGap (currentDate previousDate : Nat) : Int :=
  differenceInDays (currentDate : Int) (previousDate : Int)

/-- Calendar date (day index) of an instant; models taking
`timestamp.split('T')[0]` of an ISO-8601 UTC timestamp. -/
def dateOf (t : Nat) : Nat := t / 86400

/-- State held by the `useState` hooks of `ActivityTimelineTable`. -/
structure TableState where
  events : List ActivityEvent
  persons : List (String × Person)
  loading : Bool
  loadingMore : Bool
  hasNext : Bool
  currentPage : Nat
  error : Option String
deriving DecidableEq, Repr

/-- Initial values of the table's hooks. -/
def initialTableState : TableState :=
  { events := [], persons := [], loading := true, loadingMore := false,
    hasNext := false, currentPage := 1, error := none }

/-- Parameters of one `loadEvents(page, targetDate, append)` call; the page
size is the constant 50 and is omitted. -/
structure FetchReq where
  page : Nat
  targetDate : Option Nat
  append : Bool
deriving DecidableEq, Repr

/-- Start of `loadEvents`: sets `loading` when replacing and `loadingMore`
when appending. -/
def startLoad (append : Bool) (s : TableState) : TableState :=
  if append then { s with loadingMore := true } else { s with loading := true }

/-- JavaScript object spread of `prev` then `resp` (later keys override),
viewed as an association list: lookups prefer `resp` entries and fall back to
`prev` entries.  Models `setPersons(prev => (...prev, ...response.persons))`
up to key iteration order, which the source never observes. -/
def mergePersons (prev resp : List (String × Person)) : List (String × Person) :=
  prev.filter (fun kv => (resp.lookup kv.1).isNone) ++ resp

/-- Effect of a resolved successful `loadEvents` response on the table state:
append or replace the event list according to the call's `append` flag, merge
the side-loaded persons, update the pagination fields, clear `error`, and (in
the `finally` block) clear both loading flags. -/
def applySuccess (append : Bool) (resp : ApiResponse) (s : TableState) : TableState :=
  { events := if append then s.events ++ resp.events else resp.events,
    persons := mergePersons s.persons resp.persons,
    loading := false, loadingMore := false,
    hasNext := resp.pagination.has_next,
    currentPage := resp.pagination.current_page,
    error := none }

/-- Effect of a failed `loadEvents` call (the `catch` and `finally` branches):
set `error`, clear the loading flags, and touch no other field. -/
def applyFailure (msg : String) (s : TableState) : TableState :=
  { s with error := some msg, loading := false, loadingMore := false }

/-- Request issued by the Retry button of the error view: `loadEvents(1)`,
that is page 1, no target date, replace mode. -/
def retryRequest : FetchReq :=
  { page := 1, targetDate := none, append := false }

/-- Visible-range effect of the table: with a non-empty event list it passes
(calendar date of the last event, calendar date of the first event) to
`onVisibleRangeChange`; with an empty list it calls nothing. -/
def visibleRange (events : List ActivityEvent) : Option (Nat × Nat) :=
  match events with
  | [] => none
  | e :: rest =>
      some (dateOf (((e :: rest).getLast (List.cons_ne_nil e rest)).timestamp),
            dateOf e.timestamp)

/-- Emissions of `onVisibleRangeChange` caused by one mutation of the loaded
event list, that is by one run of the visible-range effect. -/
def emissionsFor (events : List ActivityEvent) : List (Nat × Nat) :=
  (visibleRange events).toList

/-- `renderGapIndicator`: emits no row for gaps of at most one day, and a row
displaying the day count otherwise. -/
def gapIndicator (days : Int) : Option Int :=
  if days ≤ 1 then none else some days

/-- Gap indicators emitted between consecutive rendered rows: for every row
with a predecessor the table computes
`calculateDateGap(previousEvent.timestamp, event.timestamp)` and renders
`renderGapIndicator` of it before the row. -/
def renderedGaps : List ActivityEvent → List (Option Int)
  | [] => []
  | [_] => []
  | p :: c :: rest =>
      gapIndicator (calculateDateGap p.timestamp c.timestamp) :: renderedGaps (c :: rest)

/-- JavaScript `Array.prototype.findIndex`: index of the first element
satisfying the predicate, or -1 when none does. -/
def jsFindIndex (p : Nat → Bool) : List Nat → Int
  | [] => -1
  | a :: rest =>
      if p a then 0
      else
        let r := jsFindIndex p rest
        if r < 0 then -1 else r + 1

/-- Fixed margin constant of the marker overlay (`const padding = 60`). -/
def markerPadding : ℚ := 60

/-- Index of a touchpoint's date in the chart data, modelling
`chartData.findIndex(d => d.date === touchpoint.date)`. -/
def dateIndexOf (chartDates : List Nat) (d : Nat) : Int :=
  jsFindIndex (fun x => x == d) chartDates

/-- Pixel x-position computed for one touchpoint inside `touchpointMarkers`:
`position` starts at 0 and is assigned only when the date was found in the
axis and the axis has more than one point. -/
def markerPosition (chartDates : List Nat) (chartWidth : ℚ) (d : Nat) : ℚ :=
  let availableWidth := chartWidth - markerPadding * 2
  let dateIndex := dateIndexOf chartDates d
  if 0 ≤ dateIndex ∧ 1 < chartDates.length then
    (dateIndex : ℚ) / ((chartDates.length : ℚ) - 1) * availableWidth + markerPadding
  else 0

/-- Touchpoint marker as rendered by the overlay: the touchpoint's data plus
its computed pixel x-position. -/
structure TouchpointMarker where
  tp : FirstTouchpoint
  x : ℚ
deriving DecidableEq, Repr

/-- The `touchpointMarkers` memo of `ActivityMinimap`: with an empty axis it
returns no markers; otherwise every touchpoint of the list is kept and paired
with its computed position. -/
def touchpointMarkers (chartDates : List Nat) (chartWidth : ℚ)
    (tps : List FirstTouchpoint) : List TouchpointMarker :=
  if chartDates.length = 0 then []
  else tps.map (fun tp => { tp := tp, x := markerPosition chartDates chartWidth tp.date })

/-- Distance between two day indices. -/
def dayDist (a b : Nat) : Nat := max a b - min a b

/-- Modelled from the spec: the nearest-neighbor fallback of section 4.5 for a
marker whose date is absent from the bucket axis — interpolate the index of
the nearest axis date across the available pixel width.  This definition
follows the spec's words (the source has no such fallback) and exists only to
be compared with the source's `markerPosition`. -/
def specNearestNeighborX (chartDates : List Nat) (chartWidth : ℚ) (d : Nat) : ℚ :=
  match chartDates.enum.foldl
      (fun (best : Option (Nat × Nat)) p =>
        match best with
        | none => some p
        | some q => if dayDist p.2 d < dayDist q.2 d then some p else some q)
      none with
  | none => 0
  | some (i, _) =>
      if 1 < chartDates.length then
        (i : ℚ) / ((chartDates.length : ℚ) - 1) * (chartWidth - markerPadding * 2)
          + markerPadding
      else markerPadding

/-- Combined client state: the table's hooks, the page's `navigateToDate` and
visible-range hooks from `app/page.tsx`, and the list of fetches issued but
not yet resolved. -/
structure Sys where
  table : TableState
  navigateToDate : Option Nat
  visibleStart : Option Nat
  visibleEnd : Option Nat
  pending : List FetchReq
deriving DecidableEq, Repr

/-- The page's `handleDateClick`: records the clicked date in the
`navigateToDate` state. -/
def handleDateClick (d : Nat) (s : Sys) : Sys :=
  { s with navigateToDate := some d }

/-- The table's navigation effect together with the page's
`handleNavigationComplete`: when a navigation date is set, dispatch
`loadEvents(1, navigateToDate, false)` and clear the date; otherwise do
nothing. -/
def navigationEffect (s : Sys) : Sys :=
  match s.navigateToDate with
  | some d =>
      { s with table := startLoad false s.table,
               navigateToDate := none,
               pending := s.pending ++ [{ page := 1, targetDate := some d, append := false }] }
  | none => s

/-- The infinite-scroll effect: when the sentinel is in view, `hasNext` holds
and nothing is loading, dispatch `loadEvents(currentPage + 1, undefined,
true)`. -/
def infiniteScrollEffect (s : Sys) : Sys :=
  if s.table.hasNext && !s.table.loading && !s.table.loadingMore then
    { s with table := startLoad true s.table,
             pending := s.pending ++
               [{ page := s.table.currentPage + 1, targetDate := none, append := true }] }
  else s

/-- The visible-range effect propagated through the page's
`handleVisibleRangeChange`: updates the page's visible-range state and touches
nothing else — in particular it never writes `navigateToDate`. -/
def rangeSyncEffect (s : Sys) : Sys :=
  match visibleRange s.table.events with
  | some (a, b) => { s with visibleStart := some a, visibleEnd := some b }
  | none => s

/-- Resolution of an in-flight fetch with a successful response. -/
def resolveSuccess (req : FetchReq) (resp : ApiResponse) (s : Sys) : Sys :=
  { s with table := applySuccess req.append resp s.table,
           pending := s.pending.erase req }

/-- Resolution of an in-flight fetch with a failure. -/
def resolveFailure (req : FetchReq) (msg : String) (s : Sys) : Sys :=
  { s with table := applyFailure msg s.table,
           pending := s.pending.erase req }

/-- Event fixture used by the concrete scenarios below. -/
def ev (i : Nat) (t : Nat) : ActivityEvent :=
  { id := i, timestamp := t, activity := "a", channel := "EMAIL",
    status := "SENT", direction := Direction.OUT, people := [],
    involved_team_ids := [] }

/-- Successful page fixture used by the concrete scenarios below. -/
def pageOk (evs : List ActivityEvent) (more : Bool) (page : Nat) : ApiResponse :=
  { events := evs, persons := [],
    pagination := { current_page := page, total_pages := 2, total_count := 100,
                    has_next := more, has_previous := page != 1 } }

/-- Client state after a completed initial load of one page that has a next
page. -/
def readySys : Sys :=
  { table := applySuccess false (pageOk [ev 1 (86400 * 20 + 3600)] true 1) initialTableState,
    navigateToDate := none, visibleStart := none, visibleEnd := none,
    pending := [] }

/-- Response of the navigation fetch in the race scenario. -/
def navResp : ApiResponse := pageOk [ev 2 (86400 * 10)] true 1

/-- Response of the slow load-more fetch in the race scenario. -/
def moreResp : ApiResponse := pageOk [ev 3 (86400 * 18)] true 2

/-- Race scenario trace: from `readySys`, the scroll sentinel dispatches a
load-more fetch; before it resolves the user clicks date 10, the navigation
effect dispatches the navigation fetch and its response resolves first; the
stale load-more response resolves last. -/
def staleRaceTrace : Sys :=
  resolveSuccess { page := 2, targetDate := none, append := true } moreResp
    (resolveSuccess { page := 1, targetDate := some 10, append := false } navResp
      (navigationEffect (handleDateClick 10 (infiniteScrollEffect readySys))))

/-- Failure scenario trace: from `readySys`, the scroll sentinel dispatches
the load-more fetch for page 2, which then fails. -/
def failedMoreTrace : Sys :=
  resolveFailure { page := 2, targetDate := none, append := true } "Network error"
    (infiniteScrollEffect readySys)

/-- Click scenario trace: from `readySys`, the user clicks date 10 and the
navigation effect runs once. -/
def clickTrace : Sys :=
  navigationEffect (handleDateClick 10 readySys)

/-- Touchpoint fixture whose date 29 is absent from the axis `[10, 20, 30]`
but nearest to its last entry. -/
def tpAbsent : FirstTouchpoint :=
  { person_id := "p1", timestamp := 29 * 86400, date := 29 }

/-- Touchpoint fixture whose date 15 is absent from the axis `[10, 20]`. -/
def tpHalf : FirstTouchpoint :=
  { person_id := "p2", timestamp := 0, date := 15 }

/-- Touchpoint fixture whose date 20 sits at index 1 of the axis
`[10, 20, 30]`. -/
def tpMid : FirstTouchpoint :=
  { person_id := "q", timestamp := 0, date := 20 }

/-- Touchpoint fixture whose date equals the single axis entry 10. -/
def tpSingle : FirstTouchpoint :=
  { person_id := "s", timestamp := 0, date := 10 }

/-- Person fixture already present in the client state. -/
def personA : Person :=
  { id := "p1", first_name := "John", last_name := "Doe",
    email_address := "john@example.com", job_title := none }

/-- Person fixture side-loaded by a later page. -/
def personB : Person :=
  { id := "p2", first_name := "Jane", last_name := "Smith",
    email_address := "jane@example.com", job_title := some "Director" }

/-- Page fixture that side-loads `personB` and carries no events. -/
def pageWithPersonB : ApiResponse :=
  { events := [], persons := [("p2", personB)],
    pagination := { current_page := 1, total_pages := 1, total_count := 0,
                    has_next := false, has_previous := false } }

/-- Table state fixture that already resolved `personA` from an earlier
page. -/
def stateWithPersonA : TableState :=
  { initialTableState with persons := [("p1", personA)] }

/-- The first index of an element that is not in the list is -1, as JavaScript
`findIndex` reports. -/
theorem jsFindIndex_of_not_mem (d : Nat) (l : List Nat) (h : d ∉ l) :
    jsFindIndex (fun x => x == d) l = -1 := by
  induction l with
  | nil => rfl
  | cons a rest ih =>
    have ha : a ≠ d := fun e => h (e ▸ List.mem_cons_self a rest)
    have hrest : d ∉ rest := fun e => h (List.mem_cons_of_mem a e)
    simp [jsFindIndex, ha, ih hrest]

/-- A touchpoint whose date is absent from the axis keeps the initial
position 0: the assignment branch is guarded by `dateIndex >= 0`. -/
theorem markerPosition_of_not_mem (axis : List Nat) (w : ℚ) (d : Nat) (h : d ∉ axis) :
    markerPosition axis w d = 0 := by
  simp [markerPosition, dateIndexOf, jsFindIndex_of_not_mem d axis h]

/-- Lookup in the part of a merge that keeps only entries whose key is not
overridden: it yields the old binding exactly when the overriding list has
none. -/
theorem lookup_filter_notin (resp prev : List (String × Person)) (pid : String) :
    (prev.filter (fun kv => (resp.lookup kv.1).isNone)).lookup pid
      = if (resp.lookup pid).isSome then none else prev.lookup pid := by
  induction prev with
  | nil => cases h : (resp.lookup pid) <;> simp [h]
  | cons kv rest ih =>
    rcases kv with ⟨k, v⟩
    by_cases hpid : pid = k
    · subst hpid
      cases hres : resp.lookup pid with
      | some w => simp [List.filter_cons, List.lookup, hres, ih]
      | none => simp [List.filter_cons, List.lookup, hres, ih]
    · have hb : (pid == k) = false := by simp [hpid]
      cases hk : resp.lookup k with
      | some w => simp [List.filter_cons, List.lookup, hk, hb, ih]
      | none => simp [List.filter_cons, List.lookup, hk, hb, ih]

/-- Lookup in the merged person mapping prefers the fresh response's binding
and falls back to the previous mapping, exactly as the object spread does. -/
theorem mergePersons_lookup (prev resp : List (String × Person)) (pid : String) :
    (mergePersons prev resp).lookup pid = (resp.lookup pid).or (prev.lookup pid) := by
  rw [mergePersons, List.lookup_append, lookup_filter_notin]
  cases h : (resp.lookup pid) <;> simp [h]

/-- The gap indicator rendered between the consecutive rows at positions
`pre.length` and `pre.length + 1` depends only on that pair of rows. -/
theorem renderedGaps_getElem (pre post : List ActivityEvent) (p c : ActivityEvent) :
    (renderedGaps (pre ++ p :: c :: post))[pre.length]?
      = some (gapIndicator (calculateDateGap p.timestamp c.timestamp)) := by
  induction pre with
  | nil => simp [renderedGaps]
  | cons x xs ih =>
    cases xs with
    | nil => simp [renderedGaps]
    | cons y ys => simpa [renderedGaps] using ih

/-- Claim C1 (amended): `loadEvents` carries no request sequence number and
applies every resolved response unconditionally, so when a load-more response
resolves after a navigation's replace it is appended: the final event list is
the navigation's result followed by the stale page, for every starting state
and every pair of responses. -/
theorem c1_stale_append_merges (s : TableState) (navR moreR : ApiResponse) :
    (applySuccess true moreR (applySuccess false navR s)).events
      = navR.events ++ moreR.events := by
  simp [applySuccess]

/-- Claim C1 (counterexample): in the concrete race trace — a load-more fetch
in flight, then a navigation issued and resolved, then the stale load-more
response resolving — the final loaded list is the navigation's result plus the
stale page, not exactly the navigation's result as the claim states. -/
theorem c1_stale_append_not_discarded :
    staleRaceTrace.table.events = navResp.events ++ moreResp.events ∧
    moreResp.events ≠ [] ∧
    staleRaceTrace.table.events ≠ navResp.events :=
  ⟨by decide, by decide, by decide⟩

/-- Claim C2: for every non-empty event list sorted strictly descending by
timestamp, the visible-range effect reports (calendar date of the last, oldest
event, calendar date of the first, newest event), and that start date is at
most the end date. -/
theorem c2_visibleRange_of_sorted (events : List ActivityEvent) (h : events ≠ [])
    (hs : List.Pairwise (fun a b => b.timestamp < a.timestamp) events) :
    visibleRange events
        = some (dateOf ((events.getLast h).timestamp), dateOf ((events.head h).timestamp)) ∧
    dateOf ((events.getLast h).timestamp) ≤ dateOf ((events.head h).timestamp) := by
  cases events with
  | nil => exact absurd rfl h
  | cons e rest =>
    constructor
    · rfl
    · have hmem := List.getLast_mem (l := e :: rest) h
      have hle : ((e :: rest).getLast h).timestamp ≤ e.timestamp := by
        rcases List.mem_cons.mp hmem with heq | hmem'
        · rw [heq]
        · exact le_of_lt ((List.pairwise_cons.mp hs).1 _ hmem')
      exact Nat.div_le_div_right hle

/-- Claim C2 (witness): a concrete descending two-event list reports the pair
(date of the older event, date of the newer event). -/
theorem c2_visibleRange_witness :
    visibleRange [ev 1 200000, ev 2 100000] = some (1, 2) := by
  have h := c2_visibleRange_of_sorted [ev 1 200000, ev 2 100000] (by decide) (by decide)
  rw [h.1]; decide

/-- Claim C3 (amended): a failed fetch sets the error state while leaving the
loaded event list and the person mapping unchanged, and the Retry button
always re-issues the initial request — page 1, no target date, replace mode —
regardless of which request failed. -/
theorem c3_error_preserves_rows (msg : String) (s : TableState) :
    (applyFailure msg s).error = some msg ∧
    (applyFailure msg s).events = s.events ∧
    (applyFailure msg s).persons = s.persons ∧
    retryRequest = { page := 1, targetDate := none, append := false } :=
  ⟨rfl, rfl, rfl, rfl⟩

/-- Claim C3 (counterexample): when the load-more fetch for page 2 fails, the
table enters the error state with its rows preserved, but the Retry button's
request differs from the request that failed, contradicting the claim that
retry re-issues the same request. -/
theorem c3_retry_differs_from_failed :
    failedMoreTrace.table.error = some "Network error" ∧
    failedMoreTrace.table.events = readySys.table.events ∧
    retryRequest ≠ { page := 2, targetDate := none, append := true } :=
  ⟨by decide, by decide, by decide⟩

/-- Claim C4: between any two consecutive rendered rows, timestamps exactly
five days apart produce a gap indicator showing 5, and timestamps zero or one
full day apart produce no gap indicator. -/
theorem c4_gap_values (pre post : List ActivityEvent) (p c : ActivityEvent) :
    ((p.timestamp : Int) - (c.timestamp : Int) = 5 * 86400 →
      (renderedGaps (pre ++ p :: c :: post))[pre.length]? = some (some 5)) ∧
    (((p.timestamp : Int) - (c.timestamp : Int) = 0 ∨
        (p.timestamp : Int) - (c.timestamp : Int) = 86400) →
      (renderedGaps (pre ++ p :: c :: post))[pre.length]? = some none) := by
  constructor
  · intro h
    have hg : gapIndicator (calculateDateGap p.timestamp c.timestamp) = some 5 := by
      unfold gapIndicator calculateDateGap differenceInDays
      rw [h]; decide
    rw [renderedGaps_getElem, hg]
  · intro h
    have hg : gapIndicator (calculateDateGap p.timestamp c.timestamp) = none := by
      unfold gapIndicator calculateDateGap differenceInDays
      rcases h with h | h <;> rw [h] <;> decide
    rw [renderedGaps_getElem, hg]

/-- Claim C4 (witness): concrete pairs of rows five days apart and one day
apart produce the indicator 5 and no indicator respectively. -/
theorem c4_gap_values_witness :
    (renderedGaps [ev 1 (5 * 86400), ev 2 0])[0]? = some (some 5) ∧
    (renderedGaps [ev 3 86400, ev 4 0])[0]? = some none := by
  constructor
  · exact (c4_gap_values [] [] (ev 1 (5 * 86400)) (ev 2 0)).1 (by decide)
  · exact (c4_gap_values [] [] (ev 3 86400) (ev 4 0)).2 (Or.inr (by decide))

/-- Claim C5 (amended): a touchpoint whose date is absent from the bucket axis
is still rendered, but at the fixed left position x = 0 rather than by
nearest-neighbor interpolation. -/
theorem c5_absent_date_rendered_at_zero (axis : List Nat) (w : ℚ)
    (tps : List FirstTouchpoint) (tp : FirstTouchpoint)
    (htp : tp ∈ tps) (hax : axis ≠ []) (hd : tp.date ∉ axis) :
    ({ tp := tp, x := 0 } : TouchpointMarker) ∈ touchpointMarkers axis w tps := by
  have hlen : ¬ axis.length = 0 := by simpa [List.length_eq_zero] using hax
  rw [touchpointMarkers, if_neg hlen]
  exact List.mem_map.mpr ⟨tp, htp, by rw [markerPosition_of_not_mem axis w tp.date hd]⟩

/-- Claim C5 (counterexample): for the axis `[10, 20, 30]`, chart width 800
and a touchpoint on the absent date 29, the source computes x = 0 while
nearest-neighbor interpolation as the claim states it would give x = 740; the
marker is pinned to the left edge, refuting the claim. -/
theorem c5_absent_date_pinned_to_left_edge :
    touchpointMarkers [10, 20, 30] 800 [tpAbsent] = [{ tp := tpAbsent, x := 0 }] ∧
    specNearestNeighborX [10, 20, 30] 800 tpAbsent.date = 740 ∧
    (0 : ℚ) ≠ 740 := by
  refine ⟨by simp [touchpointMarkers, markerPosition, dateIndexOf, jsFindIndex, tpAbsent],
    ?_, by norm_num⟩
  simp [specNearestNeighborX, List.enum, List.enumFrom, dayDist, markerPadding, tpAbsent]
  norm_num

/-- Claim C5 (witness): a touchpoint on the absent date 15 is rendered at
x = 0 for the axis `[10, 20]`. -/
theorem c5_absent_witness :
    ({ tp := tpHalf, x := 0 } : TouchpointMarker) ∈ touchpointMarkers [10, 20] 800 [tpHalf] :=
  c5_absent_date_rendered_at_zero [10, 20] 800 [tpHalf] tpHalf (by decide) (by decide) (by decide)

/-- Claim C6: a touchpoint whose date sits at index `i` of an axis with at
least two dates is rendered at
x = i / (length - 1) * (chartWidth - 2 * padding) + padding. -/
theorem c6_present_date_linear_interp (axis : List Nat) (w : ℚ)
    (tps : List FirstTouchpoint) (tp : FirstTouchpoint) (i : Nat)
    (htp : tp ∈ tps) (hidx : dateIndexOf axis tp.date = (i : Int))
    (hlen : 2 ≤ axis.length) :
    ({ tp := tp,
       x := (i : ℚ) / ((axis.length : ℚ) - 1) * (w - 2 * markerPadding) + markerPadding }
      : TouchpointMarker) ∈ touchpointMarkers axis w tps := by
  have hpos : markerPosition axis w tp.date
      = (i : ℚ) / ((axis.length : ℚ) - 1) * (w - 2 * markerPadding) + markerPadding := by
    simp only [markerPosition]
    rw [hidx, if_pos ⟨Int.ofNat_nonneg i, by omega⟩]
    push_cast
    ring
  rw [touchpointMarkers, if_neg (by omega)]
  exact List.mem_map.mpr ⟨tp, htp, by rw [hpos]⟩

/-- Claim C6 (witness): for the axis `[10, 20, 30]` and chart width 800, the
touchpoint on date 20 (index 1) is rendered at the interpolated position. -/
theorem c6_witness :
    ({ tp := tpMid,
       x := ((1 : Nat) : ℚ) / ((([10, 20, 30] : List Nat).length : ℚ) - 1)
              * (800 - 2 * markerPadding) + markerPadding }
      : TouchpointMarker) ∈ touchpointMarkers [10, 20, 30] 800 [tpMid] :=
  c6_present_date_linear_interp [10, 20, 30] 800 [tpMid] tpMid 1
    (by decide) (by decide) (by decide)

/-- Claim C7 (counterexample): immediately after the navigation effect runs
for a click, `navigateToDate` is already cleared while the navigation fetch is
still pending and the event list is still the old one — the request is
consumed when dispatched, not only after the navigation's replace completes as
the claim states. -/
theorem c7_cleared_before_replace :
    clickTrace.navigateToDate = none ∧
    ({ page := 1, targetDate := some 10, append := false } : FetchReq) ∈ clickTrace.pending ∧
    clickTrace.table.events = readySys.table.events :=
  ⟨by decide, by decide, by decide⟩

/-- Claim C7 (amended): a chart date click is forwarded exactly once — the
navigation effect dispatches one navigation request and clears
`navigateToDate` synchronously (before the replace completes); re-running the
effect does nothing more, a resolving fetch never sets `navigateToDate`, and
the range-sync callback never writes it, so a completed navigation cannot
re-trigger a second navigation for the same click. -/
theorem c7_nav_forwarded_once (s : Sys) (d : Nat) :
    (navigationEffect (handleDateClick d s)).pending
        = s.pending ++ [{ page := 1, targetDate := some d, append := false }] ∧
    (navigationEffect (handleDateClick d s)).navigateToDate = none ∧
    navigationEffect (navigationEffect (handleDateClick d s))
        = navigationEffect (handleDateClick d s) ∧
    (∀ req resp,
      (resolveSuccess req resp (navigationEffect (handleDateClick d s))).navigateToDate = none) ∧
    (∀ t : Sys, (rangeSyncEffect t).navigateToDate = t.navigateToDate) := by
  refine ⟨rfl, rfl, rfl, fun req resp => rfl, fun t => ?_⟩
  unfold rangeSyncEffect
  cases visibleRange t.table.events with
  | none => rfl
  | some r => cases r with | mk a b => rfl

/-- Claim C8 (counterexample): a mutation that leaves the loaded list empty
emits nothing at all — not one emission with an empty range as the claim
states. -/
theorem c8_empty_mutation_emits_nothing :
    emissionsFor [] = [] ∧ (emissionsFor []).length ≠ 1 :=
  ⟨rfl, by decide⟩

/-- Claim C8 (amended): each mutation of the loaded list triggers exactly one
range emission when the list is non-empty, and no emission when it is empty
(the previously reported range remains in place). -/
theorem c8_one_emission_per_nonempty_mutation (events : List ActivityEvent) :
    (emissionsFor events).length = if events.isEmpty then 0 else 1 := by
  cases events <;> rfl

/-- Claim C9: every load completion merges the page's side-loaded persons into
the existing mapping — a person resolvable before stays resolvable, a person
of the new page becomes resolvable — and a failed load leaves the mapping
untouched, for appends, replaces and navigations alike. -/
theorem c9_persons_monotone (append : Bool) (resp : ApiResponse) (s : TableState)
    (msg : String) (pid : String) :
    ((s.persons.lookup pid).isSome = true →
        ((applySuccess append resp s).persons.lookup pid).isSome = true) ∧
    ((resp.persons.lookup pid).isSome = true →
        ((applySuccess append resp s).persons.lookup pid).isSome = true) ∧
    (applyFailure msg s).persons = s.persons := by
  refine ⟨?_, ?_, rfl⟩
  · intro h
    show ((mergePersons s.persons resp.persons).lookup pid).isSome = true
    rw [mergePersons_lookup]
    cases hr : resp.persons.lookup pid with
    | some v => simp
    | none => simpa using h
  · intro h
    show ((mergePersons s.persons resp.persons).lookup pid).isSome = true
    rw [mergePersons_lookup]
    cases hr : resp.persons.lookup pid with
    | some v => simp
    | none => rw [hr] at h; simp at h

/-- Claim C9 (witness): after a navigation replace whose page side-loads
`personB`, both the previously loaded `personA` and the new `personB` are
resolvable. -/
theorem c9_persons_monotone_witness :
    ((applySuccess false pageWithPersonB stateWithPersonA).persons.lookup "p1").isSome = true ∧
    ((applySuccess false pageWithPersonB stateWithPersonA).persons.lookup "p2").isSome = true :=
  ⟨(c9_persons_monotone false pageWithPersonB stateWithPersonA "m" "p1").1 (by decide),
   (c9_persons_monotone false pageWithPersonB stateWithPersonA "m" "p2").2.1 (by decide)⟩

/-- Claim C10: when the bucket axis holds exactly one date, every rendered
touchpoint marker — including one whose date equals that single axis date —
has x-position 0, because the interpolation branch requires more than one
axis point. -/
theorem c10_single_axis_zero (axis : List Nat) (w : ℚ) (tps : List FirstTouchpoint)
    (h : axis.length = 1) :
    ∀ m ∈ touchpointMarkers axis w tps, m.x = 0 := by
  intro m hm
  rw [touchpointMarkers, if_neg (by omega)] at hm
  rcases List.mem_map.mp hm with ⟨tp, _, rfl⟩
  show markerPosition axis w tp.date = 0
  simp only [markerPosition]
  rw [if_neg]
  intro hc
  omega

/-- Claim C10 (witness): for the single-date axis `[10]`, the marker whose
date equals that axis date is rendered at x = 0. -/
theorem c10_single_axis_zero_witness :
    ({ tp := tpSingle, x := 0 } : TouchpointMarker).x = 0 :=
  c10_single_axis_zero [10] 800 [tpSingle] rfl { tp := tpSingle, x := 0 } (by decide)

end ActivityTimeline
